import Mathlib

/-!
Shallow embedding of the authentication core of the scripelle backend
(`src/utils/auth.utils.ts`, `src/controllers/Authentication.ts`,
`src/utils/passport.ts`), together with theorems settling the spec claims.

Modelling conventions:
* JWTs ("jsonwebtoken" library, not part of the repository) are modelled as
  records carrying the signed payload, the issue time, the expiry time and the
  signing secret; verification succeeds exactly when the verifying secret
  equals the signing secret (ideal unforgeable HMAC) and the expiry has not
  elapsed.  Times are integer seconds.  As in the library, the signature is
  checked before the expiry claim.
* bcrypt ("bcrypt" library, not part of the repository) is modelled as an
  injective tagged encoding of the plaintext; `compare` re-encodes and tests
  equality, returning `false` (never throwing) on any stored string that is
  not a hash output.  The per-call random salt is abstracted away: it does not
  affect any of the claimed properties.
* `crypto.randomBytes(32)` is modelled by an explicit 32-element entropy byte
  list supplied as an argument.
* JavaScript `Date` values are milliseconds since the epoch (`Nat`), with a
  fixed zero UTC offset for the `getHours`/`setHours` arithmetic.
* The Prisma user store is a `List User`; `findUnique`/`findFirst` is
  `List.find?` and `update where id` maps over the list.
-/

deriving instance DecidableEq for Except

namespace Scripelle

/-- `TokenPayload` from `src/types/auth.types` as used by the auth utils:
`{ userId, email }`.  The `RefreshTokenPayload` produced by `generateTokens`
carries exactly the same two fields. -/
structure TokenPayload where
  userId : Int
  email : String
deriving DecidableEq, Repr

/-- A signed JWT: payload plus issued-at, expiry (seconds) and the secret the
signature was produced with (ideal-HMAC model of `jwt.sign`). -/
structure SignedToken where
  payload : TokenPayload
  iat : Int
  expiresAt : Int
  signingSecret : String
deriving DecidableEq, Repr

/-- Error classes of `jwt.verify`: `JsonWebTokenError` (bad signature) and
`TokenExpiredError` (past expiry). -/
inductive JwtError where
  | TokenInvalid
  | TokenExpired
deriving DecidableEq, Repr

/-- Modelled from the spec: `jwt.sign(payload, secret, {expiresIn})` of the
"jsonwebtoken" library (not in `src/`): embeds the payload, records
`iat = now` and `exp = now + expiresIn`, and signs with `secret`. -/
def jwtSign (payload : TokenPayload) (secret : String) (expiresIn now : Int) :
    SignedToken :=
  { payload := payload, iat := now, expiresAt := now + expiresIn,
    signingSecret := secret }

/-- Modelled from the spec: `jwt.verify(token, secret)` of the "jsonwebtoken"
library (not in `src/`): checks the signature first (fails with
`JsonWebTokenError`, here `TokenInvalid`, on mismatch), then the `exp` claim
(fails with `TokenExpiredError`, here `TokenExpired`, when `now ≥ exp`). -/
def jwtVerify (t : SignedToken) (secret : String) (now : Int) :
    Except JwtError TokenPayload :=
  if t.signingSecret = secret then
    if t.expiresAt ≤ now then .error .TokenExpired
    else .ok t.payload
  else .error .TokenInvalid

/-- The environment-derived configuration of `auth.utils.ts`: the two JWT
secrets and the two ttls (seconds; `'15m'` = 900, `'7d'` = 604800). -/
structure AuthEnv where
  jwtSecret : String
  jwtRefreshSecret : String
  jwtExpiresIn : Int
  jwtRefreshExpiresIn : Int
deriving DecidableEq, Repr

/-- The default configuration from `auth.utils.ts` lines 74-77 (used when the
environment variables are unset). -/
def defaultAuthEnv : AuthEnv :=
  { jwtSecret := "your-secret-key-change-in-production"
    jwtRefreshSecret := "your-refresh-secret-key-change-in-production"
    jwtExpiresIn := 900
    jwtRefreshExpiresIn := 604800 }

/-- `generateAccessToken` (auth.utils.ts 96-101): sign the payload with
`JWT_SECRET` and ttl `JWT_EXPIRES_IN`. -/
def generateAccessToken (env : AuthEnv) (payload : TokenPayload) (now : Int) :
    SignedToken :=
  jwtSign payload env.jwtSecret env.jwtExpiresIn now

/-- `generateRefreshToken` (auth.utils.ts 106-111): sign the payload with
`JWT_REFRESH_SECRET` and ttl `JWT_REFRESH_EXPIRES_IN`. -/
def generateRefreshToken (env : AuthEnv) (payload : TokenPayload) (now : Int) :
    SignedToken :=
  jwtSign payload env.jwtRefreshSecret env.jwtRefreshExpiresIn now

/-- `verifyAccessToken` (auth.utils.ts 116-123): `jwt.verify` with
`JWT_SECRET`; any failure is re-thrown as the single generic error
`'Invalid or expired access token'`. -/
def verifyAccessToken (env : AuthEnv) (t : SignedToken) (now : Int) :
    Except String TokenPayload :=
  match jwtVerify t env.jwtSecret now with
  | .ok p => .ok p
  | .error _ => .error "Invalid or expired access token"

/-- `verifyRefreshToken` (auth.utils.ts 128-134): `jwt.verify` with
`JWT_REFRESH_SECRET`; any failure is re-thrown as
`'Invalid or expired refresh token'`. -/
def verifyRefreshToken (env : AuthEnv) (t : SignedToken) (now : Int) :
    Except String TokenPayload :=
  match jwtVerify t env.jwtRefreshSecret now with
  | .ok p => .ok p
  | .error _ => .error "Invalid or expired refresh token"

/-- The `{accessToken, refreshToken}` pair returned by `generateTokens`. -/
structure TokensPair where
  accessToken : SignedToken
  refreshToken : SignedToken
deriving DecidableEq, Repr

/-- `generateTokens` (auth.utils.ts 139-147): mint an access token and a
refresh token for `{userId, email}`. -/
def generateTokens (env : AuthEnv) (userId : Int) (email : String)
    (now : Int) : TokensPair :=
  { accessToken := generateAccessToken env { userId := userId, email := email } now
    refreshToken := generateRefreshToken env { userId := userId, email := email } now }

/-- Modelled from the spec: `bcrypt.hash(password, 10)` of the "bcrypt"
library (not in `src/`): an injective tagged encoding of the plaintext; the
random salt is abstracted away. -/
def hashPassword (password : String) : String :=
  "$2b$10$" ++ password

/-- Modelled from the spec: `bcrypt.compare(password, hashedPassword)` of the
"bcrypt" library (not in `src/`): true exactly when the stored string is the
hash of the plaintext; total, returns `false` on any non-hash stored string. -/
def comparePassword (password hashedPassword : String) : Bool :=
  hashedPassword == hashPassword password

/-- Lower-case hex digit for a value `< 16`, as produced by node's
`Buffer.toString('hex')`: `0`-`9` then `a`-`f`. -/
def hexDigit (n : Nat) : Char :=
  if n < 10 then Char.ofNat (48 + n) else Char.ofNat (87 + n)

/-- One byte rendered as two lower-case hex characters. -/
def byteToHex (b : Nat) : List Char :=
  [hexDigit (b / 16), hexDigit (b % 16)]

/-- `Buffer.toString('hex')`: concatenate the two-character rendering of each
byte. -/
def bytesToHex (bs : List Nat) : String :=
  String.mk (bs.map byteToHex).flatten

/-- `generateResetToken` (auth.utils.ts 152-154):
`crypto.randomBytes(32).toString('hex')`.  The random 32-byte buffer is the
explicit `entropy` argument. -/
def generateResetToken (entropy : List Nat) : String :=
  bytesToHex entropy

/-- `Date.prototype.getHours` on a millisecond timestamp (fixed zero UTC
offset): the hour-of-day field. -/
def getHours (d : Nat) : Nat :=
  d % 86400000 / 3600000

/-- `Date.prototype.setHours h` on a millisecond timestamp (fixed zero UTC
offset): replace the hour-of-day field by `h`, keeping the day, minutes,
seconds and milliseconds; an `h ≥ 24` rolls over into the following days. -/
def setHours (d h : Nat) : Nat :=
  d - getHours d * 3600000 + h * 3600000

/-- `generateResetTokenExpiry` (auth.utils.ts 159-163):
`expiry.setHours(expiry.getHours() + 1)` on the current time. -/
def generateResetTokenExpiry (now : Nat) : Nat :=
  setHours now (getHours now + 1)

/-- `isResetTokenValid` (auth.utils.ts 168-171): `false` on a `null` expiry,
otherwise `new Date() < expiry` (strict). -/
def isResetTokenValid (expiry : Option Nat) (now : Nat) : Bool :=
  match expiry with
  | none => false
  | some e => decide (now < e)

/-! ### The Prisma user store and the controllers -/

/-- A row of the Prisma `User` model, restricted to the fields the
authentication controllers read or write.  `password` is nullable (the
`add_google_oauth` migration dropped its NOT NULL); `resetTokenExpiry` is a
millisecond timestamp. -/
structure User where
  id : Int
  email : String
  password : Option String
  firstName : String
  lastName : String
  plan : String
  betaMember : Bool
  status : String
  isAdmin : Bool
  resetToken : Option String
  resetTokenExpiry : Option Nat
deriving DecidableEq, Repr

/-- `prisma.user.findUnique({where: {email}})`. -/
def findByEmail (db : List User) (email : String) : Option User :=
  db.find? fun u => u.email == email

/-- `prisma.user.findUnique({where: {id}})`. -/
def findById (db : List User) (i : Int) : Option User :=
  db.find? fun u => u.id == i

/-- `prisma.user.findFirst({where: {resetToken: token}})`. -/
def findByResetToken (db : List User) (token : String) : Option User :=
  db.find? fun u => u.resetToken == some token

/-- `prisma.user.update({where: {id}, data})`: apply `f` to every row whose
`id` matches (the `id` column is unique, so at most one in practice). -/
def updateById (db : List User) (i : Int) (f : User → User) : List User :=
  db.map fun u => if u.id == i then f u else u

/-- Outcome of the `login` controller (Authentication.ts 113-185), keyed by
the response it sends. -/
inductive LoginOutcome where
  /-- 400 `'Email and password are required'`. -/
  | badRequest
  /-- 401 `'Invalid credentials'` (unknown email or wrong password). -/
  | invalidCredentials
  /-- 403 pending-approval waiting-list response. -/
  | pendingApproval
  /-- 403 beta-access-rejected response. -/
  | rejected
  /-- 200 with the access token in the body and the refresh token cookie. -/
  | success (tokens : TokensPair)
deriving DecidableEq, Repr

/-- The `login` controller (Authentication.ts 113-185).  JavaScript falsiness
of a missing/empty body field is modelled by comparison with `""`; the stored
hash is `user.password || ""`. -/
def login (env : AuthEnv) (db : List User) (email password : String)
    (now : Int) : LoginOutcome :=
  if email = "" ∨ password = "" then .badRequest
  else
    match findByEmail db email with
    | none => .invalidCredentials
    | some user =>
      if ¬ comparePassword password (user.password.getD "") then
        .invalidCredentials
      else if user.status = "pending" ∧ ¬ user.betaMember then
        .pendingApproval
      else if user.status = "rejected" then
        .rejected
      else
        .success (generateTokens env user.id user.email now)

/-- The Google OAuth verify callback (`src/utils/passport.ts`): look the
profile's email up; when absent, create the user with `password: ""` and
`plan: "free"` (the `status`/`betaMember`/`isAdmin` columns take their schema
defaults `'pending'`/`false`/`false`).  Returns the user passed to `done`
and the resulting store; `newId` is the `SERIAL` id the insert would get. -/
def googleFindOrCreate (db : List User) (email firstName lastName : String)
    (newId : Int) : User × List User :=
  match findByEmail db email with
  | some user => (user, db)
  | none =>
    let user : User :=
      { id := newId, email := email, password := some "",
        firstName := firstName, lastName := lastName, plan := "free",
        betaMember := false, status := "pending", isAdmin := false,
        resetToken := none, resetTokenExpiry := none }
    (user, db ++ [user])

/-- Result of the `refreshToken` controller (Authentication.ts 191-249): the
HTTP status, the access token returned in the body (if any) and the refresh
token set as the new cookie value (if any). -/
structure RefreshResult where
  status : Nat
  bodyAccessToken : Option SignedToken
  cookieRefreshToken : Option SignedToken
deriving DecidableEq, Repr

/-- The `refreshToken` controller (Authentication.ts 191-249): read the
cookie (401 when absent), verify it (the thrown verification error is caught
and answered with 403, minting nothing), confirm the user still exists (401
otherwise), then mint a brand-new pair and set the new refresh cookie. -/
def refreshTokenHandler (env : AuthEnv) (db : List User)
    (cookie : Option SignedToken) (now : Int) : RefreshResult :=
  match cookie with
  | none => { status := 401, bodyAccessToken := none, cookieRefreshToken := none }
  | some tok =>
    match verifyRefreshToken env tok now with
    | .error _ =>
      { status := 403, bodyAccessToken := none, cookieRefreshToken := none }
    | .ok payload =>
      match findById db payload.userId with
      | none =>
        { status := 401, bodyAccessToken := none, cookieRefreshToken := none }
      | some user =>
        let pair := generateTokens env user.id user.email now
        { status := 200, bodyAccessToken := some pair.accessToken,
          cookieRefreshToken := some pair.refreshToken }

/-- Outcome of the `forgotPassword` controller (Authentication.ts 349-406). -/
inductive ForgotOutcome where
  /-- 400 `'Email is required'`. -/
  | badRequest
  /-- 200 generic response for an unknown email (no enumeration). -/
  | okUnknownEmail
  /-- 200 after the reset email was dispatched. -/
  | okSent
  /-- 500 `'Failed to send reset email ...'` after the dispatch threw. -/
  | emailFailed
deriving DecidableEq, Repr

/-- The `forgotPassword` controller (Authentication.ts 349-406): persist a
fresh reset token and expiry on the user, then dispatch the email; when the
dispatch fails (`emailOk = false`), both fields are set back to `null` before
the 500 response. -/
def forgotPassword (db : List User) (email : String) (entropy : List Nat)
    (now : Nat) (emailOk : Bool) : ForgotOutcome × List User :=
  if email = "" then (.badRequest, db)
  else
    match findByEmail db email with
    | none => (.okUnknownEmail, db)
    | some user =>
      let db1 := updateById db user.id fun u =>
        { u with resetToken := some (generateResetToken entropy),
                 resetTokenExpiry := some (generateResetTokenExpiry now) }
      if emailOk then (.okSent, db1)
      else
        (.emailFailed,
         updateById db1 user.id fun u =>
           { u with resetToken := none, resetTokenExpiry := none })

/-- Outcome of the `resetPassword` controller (Authentication.ts 412-467). -/
inductive ResetOutcome where
  /-- 400 missing field or password shorter than 6 characters. -/
  | badRequest
  /-- 400 `'Invalid or expired reset token'` (no user matches, or the matched
  user has no stored expiry). -/
  | invalidToken
  /-- 400 `'Reset token has expired ...'`, with the fields cleared. -/
  | expiredToken
  /-- 200, password updated and the fields cleared. -/
  | success
deriving DecidableEq, Repr

/-- The `resetPassword` controller (Authentication.ts 412-467): validate the
body, look the user up by the presented token, reject when no expiry is
stored, clear the token fields when the expiry has passed, and otherwise
update the password and clear the token fields in the same `update` call. -/
def resetPassword (db : List User) (token newPassword : String) (now : Nat) :
    ResetOutcome × List User :=
  if token = "" ∨ newPassword = "" then (.badRequest, db)
  else if newPassword.length < 6 then (.badRequest, db)
  else
    match findByResetToken db token with
    | none => (.invalidToken, db)
    | some user =>
      match user.resetTokenExpiry with
      | none => (.invalidToken, db)
      | some e =>
        if ¬ isResetTokenValid (some e) now then
          (.expiredToken,
           updateById db user.id fun u =>
             { u with resetToken := none, resetTokenExpiry := none })
        else
          (.success,
           updateById db user.id fun u =>
             { u with password := some (hashPassword newPassword),
                      resetToken := none, resetTokenExpiry := none })

/-- A lower-case hexadecimal character: a decimal digit or `a`-`f`. -/
def isLowerHex (c : Char) : Bool :=
  c.isDigit || ('a' ≤ c && c ≤ 'f')

/-- A sample user row holding a live reset token, for concrete witnesses. -/
def resetUser : User :=
  { id := 1, email := "a@x.com", password := some (hashPassword "oldpw"),
    firstName := "A", lastName := "B", plan := "free", betaMember := true,
    status := "approved", isAdmin := false, resetToken := some "tok",
    resetTokenExpiry := some 100 }

/-- A one-row store containing `resetUser`. -/
def resetDb : List User := [resetUser]

/-- A sample approved user row with no live reset token. -/
def plainUser : User :=
  { id := 7, email := "u@x.com", password := some (hashPassword "secret1"),
    firstName := "U", lastName := "X", plan := "free", betaMember := true,
    status := "approved", isAdmin := false, resetToken := none,
    resetTokenExpiry := none }

/-- A one-row store containing `plainUser`. -/
def plainDb : List User := [plainUser]

/-- A sample user row created through the Google OAuth callback: empty-string
password. -/
def oauthUser : User :=
  (googleFindOrCreate [] "g@x.com" "G" "X" 3).1

/-- The store after the Google OAuth callback created `oauthUser`. -/
def oauthDb : List User :=
  (googleFindOrCreate [] "g@x.com" "G" "X" 3).2

/-! ### Helper lemmas -/

/-- Verifying a token with the secret it was signed with, before its expiry,
recovers the payload. -/
lemma jwtVerify_sign_ok (p : TokenPayload) (secret : String) (ttl now t : Int)
    (h : t < now + ttl) :
    jwtVerify (jwtSign p secret ttl now) secret t = .ok p := by
  simp [jwtVerify, jwtSign]
  omega

/-- Verifying a token with a secret different from its signing secret fails
with the invalid-signature error. -/
lemma jwtVerify_wrong_secret (t : SignedToken) (secret : String) (now : Int)
    (h : t.signingSecret ≠ secret) :
    jwtVerify t secret now = .error .TokenInvalid := by
  simp [jwtVerify, h]

/-- The hash encoding is injective in the plaintext. -/
lemma hashPassword_inj {p q : String} (h : hashPassword p = hashPassword q) :
    p = q := by
  unfold hashPassword at h
  have h2 : "$2b$10$".data ++ p.data = "$2b$10$".data ++ q.data := by
    simpa [String.data_append] using congrArg String.data h
  exact String.ext (List.append_cancel_left h2)

/-- No hash output is the empty string. -/
lemma hashPassword_ne_empty (p : String) : hashPassword p ≠ "" := by
  intro h
  have hlen := congrArg String.length h
  simp [hashPassword, String.length_append] at hlen
  exact absurd hlen.1 (by decide)

/-- Comparing any plaintext against an empty stored hash yields `false`. -/
lemma comparePassword_empty (p : String) : comparePassword p "" = false := by
  have h : ("" : String) ≠ hashPassword p := fun h => hashPassword_ne_empty p h.symm
  simpa [comparePassword] using h

/-- Membership in an `updateById` result: each element either comes from a
matching row through `f`, or is an untouched row with a different id. -/
lemma updateById_mem {db : List User} {i : Int} {f : User → User} {v : User}
    (hv : v ∈ updateById db i f) :
    (∃ w, w ∈ db ∧ w.id = i ∧ v = f w) ∨ (v ∈ db ∧ v.id ≠ i) := by
  unfold updateById at hv
  rcases List.mem_map.mp hv with ⟨w, hw, hid⟩
  by_cases h : w.id = i
  · exact Or.inl ⟨w, hw, h, by simp [h] at hid; exact hid.symm⟩
  · refine Or.inr ?_
    have hv' : v = w := by simp [h] at hid; exact hid.symm
    exact ⟨hv' ▸ hw, hv' ▸ h⟩

/-- A string of length at least 6 is not empty. -/
lemma ne_empty_of_six_le {s : String} (h : 6 ≤ s.length) : s ≠ "" := by
  intro he
  rw [he] at h
  simp [String.length] at h

/-! ### Claims -/

/-- C1 — Token round-trip: for every environment, `userId` and `email`,
`generateTokens` returns a pair whose access token verifies with
`verifyAccessToken` and whose refresh token verifies with
`verifyRefreshToken`, each at any instant before its own ttl elapses, and
both recover exactly `{userId, email}`. -/
theorem generateTokens_round_trip (env : AuthEnv) (userId : Int)
    (email : String) (now t : Int) (ha : t < now + env.jwtExpiresIn)
    (hr : t < now + env.jwtRefreshExpiresIn) :
    verifyAccessToken env (generateTokens env userId email now).accessToken t =
      .ok { userId := userId, email := email } ∧
    verifyRefreshToken env (generateTokens env userId email now).refreshToken t =
      .ok { userId := userId, email := email } := by
  have h1 := jwtVerify_sign_ok { userId := userId, email := email }
    env.jwtSecret env.jwtExpiresIn now t ha
  have h2 := jwtVerify_sign_ok { userId := userId, email := email }
    env.jwtRefreshSecret env.jwtRefreshExpiresIn now t hr
  constructor
  · simp [verifyAccessToken, generateTokens, generateAccessToken, h1]
  · simp [verifyRefreshToken, generateTokens, generateRefreshToken, h2]

/-- Witness for C1: the spec scenario `generateTokens(7, "u@x.com")` under
the default configuration, verified at the instant of minting. -/
theorem generateTokens_round_trip_witness :
    ((0 : Int) < 0 + defaultAuthEnv.jwtExpiresIn ∧
     (0 : Int) < 0 + defaultAuthEnv.jwtRefreshExpiresIn) ∧
    (verifyAccessToken defaultAuthEnv
        (generateTokens defaultAuthEnv 7 "u@x.com" 0).accessToken 0 =
      .ok { userId := 7, email := "u@x.com" } ∧
     verifyRefreshToken defaultAuthEnv
        (generateTokens defaultAuthEnv 7 "u@x.com" 0).refreshToken 0 =
      .ok { userId := 7, email := "u@x.com" }) :=
  ⟨⟨by decide, by decide⟩,
   generateTokens_round_trip defaultAuthEnv 7 "u@x.com" 0 0
     (by decide) (by decide)⟩

/-- C2 — Password hash round-trip and mismatch: hashing then comparing the
same plaintext succeeds; comparing against the hash of a different plaintext
fails; and comparing against any stored string that is not the plaintext's
hash (malformed input included) returns `false` rather than failing. -/
theorem comparePassword_hashPassword_spec :
    (∀ p : String, comparePassword p (hashPassword p) = true) ∧
    (∀ p p2 : String, p ≠ p2 → comparePassword p (hashPassword p2) = false) ∧
    (∀ p s : String, s ≠ hashPassword p → comparePassword p s = false) := by
  refine ⟨fun p => by simp [comparePassword], fun p p2 hne => ?_, fun p s hne => ?_⟩
  · have : hashPassword p2 ≠ hashPassword p := fun h => hne (hashPassword_inj h).symm
    simpa [comparePassword] using this
  · simpa [comparePassword] using hne

/-- Witness for C2: concrete distinct plaintexts `"secret1"` and `"secret2"`. -/
theorem comparePassword_hashPassword_spec_witness :
    (("secret1" : String) ≠ "secret2" ∧
     comparePassword "secret1" (hashPassword "secret2") = false) ∧
    comparePassword "secret1" (hashPassword "secret1") = true :=
  ⟨⟨by decide,
    comparePassword_hashPassword_spec.2.1 "secret1" "secret2" (by decide)⟩,
   comparePassword_hashPassword_spec.1 "secret1"⟩

/-- C3 — Cross-secret rejection: a token signed with secret `A` never
verifies under a different secret `B`; any token whose signing secret differs
from the verifying secret fails with the invalid-signature error; and when
the access and refresh secrets differ, each of `generateTokens`'s tokens is
rejected by the other verifier with its generic error. -/
theorem cross_secret_rejection :
    (∀ (p : TokenPayload) (A B : String) (ttl now t : Int), A ≠ B →
        jwtVerify (jwtSign p A ttl now) B t = .error .TokenInvalid) ∧
    (∀ (tok : SignedToken) (secret : String) (now : Int),
        tok.signingSecret ≠ secret →
        jwtVerify tok secret now = .error .TokenInvalid) ∧
    (∀ (env : AuthEnv), env.jwtSecret ≠ env.jwtRefreshSecret →
        ∀ (userId : Int) (email : String) (now t : Int),
          verifyAccessToken env
              (generateTokens env userId email now).refreshToken t =
            .error "Invalid or expired access token" ∧
          verifyRefreshToken env
              (generateTokens env userId email now).accessToken t =
            .error "Invalid or expired refresh token") := by
  refine ⟨fun p A B ttl now t hAB => ?_, fun tok secret now h => ?_,
    fun env hsec userId email now t => ⟨?_, ?_⟩⟩
  · exact jwtVerify_wrong_secret _ _ _ (by simpa [jwtSign] using hAB)
  · exact jwtVerify_wrong_secret _ _ _ h
  · have h := jwtVerify_wrong_secret
      (generateTokens env userId email now).refreshToken env.jwtSecret t
      (by simpa [generateTokens, generateRefreshToken, jwtSign] using
        fun h => hsec h.symm)
    simp [verifyAccessToken, h]
  · have h := jwtVerify_wrong_secret
      (generateTokens env userId email now).accessToken env.jwtRefreshSecret t
      (by simpa [generateTokens, generateAccessToken, jwtSign] using hsec)
    simp [verifyRefreshToken, h]

/-- Witness for C3: concrete distinct secrets, and the default environment
whose access and refresh secrets differ. -/
theorem cross_secret_rejection_witness :
    (("secretA" : String) ≠ "secretB" ∧
     jwtVerify (jwtSign { userId := 7, email := "u@x.com" } "secretA" 900 0)
       "secretB" 0 = .error .TokenInvalid) ∧
    (defaultAuthEnv.jwtSecret ≠ defaultAuthEnv.jwtRefreshSecret ∧
     verifyAccessToken defaultAuthEnv
         (generateTokens defaultAuthEnv 7 "u@x.com" 0).refreshToken 0 =
       .error "Invalid or expired access token" ∧
     verifyRefreshToken defaultAuthEnv
         (generateTokens defaultAuthEnv 7 "u@x.com" 0).accessToken 0 =
       .error "Invalid or expired refresh token") :=
  ⟨⟨by decide,
    cross_secret_rejection.1 { userId := 7, email := "u@x.com" }
      "secretA" "secretB" 900 0 0 (by decide)⟩,
   ⟨by decide,
    (cross_secret_rejection.2.2 defaultAuthEnv (by decide) 7 "u@x.com" 0 0).1,
    (cross_secret_rejection.2.2 defaultAuthEnv (by decide) 7 "u@x.com" 0 0).2⟩⟩

/-- C5 (counterexample) — the claim as stated is false: a token whose ttl has
elapsed (minted at 0 with ttl 900, verified at 1000) but whose signing secret
differs from the verifying secret fails with `TokenInvalid`, not
`TokenExpired`: the signature is checked before the expiry claim. -/
theorem expired_missigned_token_counterexample :
    (jwtSign { userId := 1, email := "u@x.com" } "secretA" 900 0).expiresAt ≤
        1000 ∧
    jwtVerify (jwtSign { userId := 1, email := "u@x.com" } "secretA" 900 0)
        "secretB" 1000 ≠ .error .TokenExpired ∧
    jwtVerify (jwtSign { userId := 1, email := "u@x.com" } "secretA" 900 0)
        "secretB" 1000 = .error .TokenInvalid := by
  refine ⟨by decide, by decide, by decide⟩

/-- C5 (amended) — Expiry-class vs signature-class errors: a token signed
with the matching secret whose ttl has elapsed always fails with
`TokenExpired`, never `TokenInvalid`; a token whose signature does not match
always fails with `TokenInvalid` (even when also expired). -/
theorem jwtVerify_error_classes :
    (∀ (tok : SignedToken) (secret : String) (now : Int),
        tok.signingSecret = secret → tok.expiresAt ≤ now →
        jwtVerify tok secret now = .error .TokenExpired) ∧
    (∀ (tok : SignedToken) (secret : String) (now : Int),
        tok.signingSecret ≠ secret →
        jwtVerify tok secret now = .error .TokenInvalid) := by
  refine ⟨fun tok secret now hsec hexp => ?_, fun tok secret now h =>
    jwtVerify_wrong_secret tok secret now h⟩
  simp [jwtVerify, hsec, hexp]

/-- Witness for C5: a correctly-signed token verified 100 seconds after its
expiry fails with `TokenExpired`; a mis-signed one fails with
`TokenInvalid`. -/
theorem jwtVerify_error_classes_witness :
    ((jwtSign { userId := 1, email := "u@x.com" } "secretA" 900 0).signingSecret =
        "secretA" ∧
     (jwtSign { userId := 1, email := "u@x.com" } "secretA" 900 0).expiresAt ≤
        1000 ∧
     jwtVerify (jwtSign { userId := 1, email := "u@x.com" } "secretA" 900 0)
        "secretA" 1000 = .error .TokenExpired) ∧
    ((jwtSign { userId := 1, email := "u@x.com" } "secretA" 900 0).signingSecret ≠
        "secretB" ∧
     jwtVerify (jwtSign { userId := 1, email := "u@x.com" } "secretA" 900 0)
        "secretB" 1000 = .error .TokenInvalid) :=
  ⟨⟨by decide, by decide,
    jwtVerify_error_classes.1 _ "secretA" 1000 (by decide) (by decide)⟩,
   ⟨by decide,
    jwtVerify_error_classes.2 _ "secretB" 1000 (by decide)⟩⟩

/-- C6 — Reset-token validity predicate: `isResetTokenValid` is `false` on a
`null` expiry, and on a present expiry it is `true` exactly when the current
time is strictly before it (hence `true` on any future date and `false` on
any past-or-present date). -/
theorem isResetTokenValid_spec :
    ∀ now : Nat,
      isResetTokenValid none now = false ∧
      ∀ e : Nat, isResetTokenValid (some e) now = true ↔ now < e := by
  intro now
  exact ⟨rfl, fun e => by simp [isResetTokenValid]⟩

/-- Every hex-digit value below 16 renders to a lower-case hex character. -/
lemma hexDigit_isLowerHex : ∀ n < 16, isLowerHex (hexDigit n) = true := by
  decide

/-- The hex rendering of a list of bytes has two characters per byte. -/
lemma bytesToHex_length (bs : List Nat) :
    (bytesToHex bs).length = 2 * bs.length := by
  induction bs with
  | nil => rfl
  | cons b rest ih =>
    have h1 : (bytesToHex (b :: rest)).length = 2 + (bytesToHex rest).length := by
      simp [bytesToHex, byteToHex, String.length]
      omega
    rw [h1, ih, List.length_cons]
    omega

/-- Every character of the hex rendering of genuine bytes is a lower-case hex
character. -/
lemma bytesToHex_chars (bs : List Nat) (hb : ∀ b ∈ bs, b < 256) :
    ∀ c ∈ (bytesToHex bs).data, isLowerHex c = true := by
  induction bs with
  | nil => intro c hc; simp [bytesToHex] at hc
  | cons b rest ih =>
    intro c hc
    simp only [bytesToHex, byteToHex, List.map_cons, List.flatten_cons,
      List.cons_append, List.nil_append, List.mem_cons] at hc
    have hblt : b < 256 := hb b (by simp)
    rcases hc with hc | hc | hc
    · exact hc ▸ hexDigit_isLowerHex (b / 16) (by omega)
    · exact hc ▸ hexDigit_isLowerHex (b % 16) (by omega)
    · exact ih (fun x hx => hb x (by simp [hx])) c (by simpa [bytesToHex] using hc)

/-- C7 — Reset-token issuance postcondition: consuming a 32-byte (256-bit)
random buffer, `generateResetToken` renders a 64-character string of
lower-case hex characters, and `generateResetTokenExpiry` is exactly one hour
(3600000 ms) after the moment of issuance. -/
theorem resetToken_issuance_spec (entropy : List Nat) (now : Nat)
    (hlen : entropy.length = 32) (hbytes : ∀ b ∈ entropy, b < 256) :
    (generateResetToken entropy).length = 64 ∧
    (∀ c ∈ (generateResetToken entropy).data, isLowerHex c = true) ∧
    generateResetTokenExpiry now = now + 3600000 := by
  refine ⟨?_, ?_, ?_⟩
  · rw [generateResetToken, bytesToHex_length, hlen]
  · exact bytesToHex_chars entropy hbytes
  · simp only [generateResetTokenExpiry, setHours, getHours]
    omega

/-- Witness for C7: an all-zero 32-byte buffer and issuance time 0. -/
theorem resetToken_issuance_spec_witness :
    ((List.replicate 32 0).length = 32 ∧
     (∀ b ∈ List.replicate 32 (0 : Nat), b < 256)) ∧
    ((generateResetToken (List.replicate 32 0)).length = 64 ∧
     (∀ c ∈ (generateResetToken (List.replicate 32 0)).data,
        isLowerHex c = true) ∧
     generateResetTokenExpiry 0 = 0 + 3600000) :=
  ⟨⟨by decide, by decide⟩,
   resetToken_issuance_spec (List.replicate 32 0) 0 (by decide) (by decide)⟩

/-- Reduction of `resetPassword` once the body validation passes and the
presented token matches a stored user with a stored expiry. -/
lemma resetPassword_eq (db : List User) (token newPassword : String)
    (now : Nat) (user : User) (e : Nat)
    (htok : token ≠ "") (hlen : 6 ≤ newPassword.length)
    (hfind : findByResetToken db token = some user)
    (hexp : user.resetTokenExpiry = some e) :
    resetPassword db token newPassword now =
      if now < e then
        (.success,
         updateById db user.id fun u =>
           { u with password := some (hashPassword newPassword),
                    resetToken := none, resetTokenExpiry := none })
      else
        (.expiredToken,
         updateById db user.id fun u =>
           { u with resetToken := none, resetTokenExpiry := none }) := by
  have hne : newPassword ≠ "" := ne_empty_of_six_le hlen
  unfold resetPassword
  rw [if_neg (by simp [htok, hne]), if_neg (by omega)]
  simp only [hfind, hexp]
  by_cases h : now < e <;> simp [isResetTokenValid, h]

/-- C4 — Reset token is single-use by construction: whenever the presented
token matches a stored user whose expiry field is present (so the attempt
reaches the validity check), the resulting store has both `resetToken` and
`resetTokenExpiry` cleared on that user whatever the outcome; on a valid
token the clearing happens in the same update as the password change and the
operation succeeds, and on an expired token the operation reports failure. -/
theorem resetPassword_single_use (db : List User) (token newPassword : String)
    (now : Nat) (user : User) (e : Nat)
    (htok : token ≠ "") (hlen : 6 ≤ newPassword.length)
    (hfind : findByResetToken db token = some user)
    (hexp : user.resetTokenExpiry = some e) :
    (∀ v ∈ (resetPassword db token newPassword now).2, v.id = user.id →
        v.resetToken = none ∧ v.resetTokenExpiry = none) ∧
    (isResetTokenValid (some e) now = true →
        (resetPassword db token newPassword now).1 = .success ∧
        ∀ v ∈ (resetPassword db token newPassword now).2, v.id = user.id →
          v.password = some (hashPassword newPassword)) ∧
    (isResetTokenValid (some e) now = false →
        (resetPassword db token newPassword now).1 = .expiredToken) := by
  have hred := resetPassword_eq db token newPassword now user e htok hlen hfind hexp
  by_cases h : now < e
  · rw [hred, if_pos h]
    refine ⟨?_, fun _ => ⟨rfl, ?_⟩, fun hfalse => ?_⟩
    · intro v hv hid
      rcases updateById_mem hv with ⟨w, hw, hwid, rfl⟩ | ⟨hvdb, hnid⟩
      · exact ⟨rfl, rfl⟩
      · exact absurd hid hnid
    · intro v hv hid
      rcases updateById_mem hv with ⟨w, hw, hwid, rfl⟩ | ⟨hvdb, hnid⟩
      · rfl
      · exact absurd hid hnid
    · simp [isResetTokenValid, h] at hfalse
  · rw [hred, if_neg h]
    refine ⟨?_, fun htrue => ?_, fun _ => rfl⟩
    · intro v hv hid
      rcases updateById_mem hv with ⟨w, hw, hwid, rfl⟩ | ⟨hvdb, hnid⟩
      · exact ⟨rfl, rfl⟩
      · exact absurd hid hnid
    · simp [isResetTokenValid, h] at htrue

/-- Witness for C4: a concrete one-row store whose user holds the live reset
token `"tok"` with expiry 100, consumed at time 5 with new password
`"secret1"`. -/
theorem resetPassword_single_use_witness :
    (("tok" : String) ≠ "" ∧ 6 ≤ ("secret1" : String).length ∧
     findByResetToken resetDb "tok" = some resetUser ∧
     resetUser.resetTokenExpiry = some 100 ∧
     isResetTokenValid (some 100) 5 = true) ∧
    (resetPassword resetDb "tok" "secret1" 5).1 = .success ∧
    (∀ v ∈ (resetPassword resetDb "tok" "secret1" 5).2, v.id = resetUser.id →
        v.resetToken = none ∧ v.resetTokenExpiry = none) :=
  ⟨⟨by decide, by decide, rfl, rfl, by decide⟩,
   ((resetPassword_single_use resetDb "tok" "secret1" 5 resetUser 100
       (by decide) (by decide) rfl rfl).2.1 (by decide)).1,
   (resetPassword_single_use resetDb "tok" "secret1" 5 resetUser 100
       (by decide) (by decide) rfl rfl).1⟩

/-- C8 — Refresh rotation atomicity: when verification of the presented
refresh token fails, the handler answers 403 with no access token in the body
and no new cookie value (no partial success); when verification succeeds and
the user still exists, the handler answers 200 with a freshly minted access
token in the body and a freshly minted refresh token as the new cookie, both
issued at the current instant for that user's identity. -/
theorem refreshToken_rotation (env : AuthEnv) (db : List User)
    (tok : SignedToken) (now : Int) :
    (verifyRefreshToken env tok now = .error "Invalid or expired refresh token" →
        refreshTokenHandler env db (some tok) now =
          { status := 403, bodyAccessToken := none,
            cookieRefreshToken := none }) ∧
    (∀ (p : TokenPayload) (user : User),
        verifyRefreshToken env tok now = .ok p →
        findById db p.userId = some user →
        refreshTokenHandler env db (some tok) now =
          { status := 200,
            bodyAccessToken := some (generateAccessToken env
              { userId := user.id, email := user.email } now),
            cookieRefreshToken := some (generateRefreshToken env
              { userId := user.id, email := user.email } now) } ∧
        (generateAccessToken env
            { userId := user.id, email := user.email } now).payload =
          { userId := user.id, email := user.email } ∧
        (generateAccessToken env
            { userId := user.id, email := user.email } now).iat = now ∧
        (generateRefreshToken env
            { userId := user.id, email := user.email } now).payload =
          { userId := user.id, email := user.email } ∧
        (generateRefreshToken env
            { userId := user.id, email := user.email } now).iat = now) := by
  constructor
  · intro hfail
    simp [refreshTokenHandler, hfail]
  · intro p user hok hfind
    refine ⟨?_, rfl, rfl, rfl, rfl⟩
    simp [refreshTokenHandler, hok, hfind, generateTokens]

/-- Witness for C8: under the default configuration, a refresh token signed
with the wrong secret is answered 403 with nothing minted, and the genuine
refresh token of `plainUser` is answered 200 with a fresh pair. -/
theorem refreshToken_rotation_witness :
    (verifyRefreshToken defaultAuthEnv
        (jwtSign { userId := 7, email := "u@x.com" } "wrong" 900 0) 0 =
          .error "Invalid or expired refresh token" ∧
     refreshTokenHandler defaultAuthEnv plainDb
        (some (jwtSign { userId := 7, email := "u@x.com" } "wrong" 900 0)) 0 =
          { status := 403, bodyAccessToken := none,
            cookieRefreshToken := none }) ∧
    (verifyRefreshToken defaultAuthEnv
        (generateRefreshToken defaultAuthEnv
          { userId := 7, email := "u@x.com" } 0) 0 =
          .ok { userId := 7, email := "u@x.com" } ∧
     findById plainDb 7 = some plainUser ∧
     refreshTokenHandler defaultAuthEnv plainDb
        (some (generateRefreshToken defaultAuthEnv
          { userId := 7, email := "u@x.com" } 0)) 0 =
          { status := 200,
            bodyAccessToken := some (generateAccessToken defaultAuthEnv
              { userId := plainUser.id, email := plainUser.email } 0),
            cookieRefreshToken := some (generateRefreshToken defaultAuthEnv
              { userId := plainUser.id, email := plainUser.email } 0) }) :=
  ⟨⟨by decide,
    (refreshToken_rotation defaultAuthEnv plainDb
        (jwtSign { userId := 7, email := "u@x.com" } "wrong" 900 0) 0).1
      (by decide)⟩,
   ⟨by decide, rfl,
    ((refreshToken_rotation defaultAuthEnv plainDb
        (generateRefreshToken defaultAuthEnv
          { userId := 7, email := "u@x.com" } 0) 0).2
      { userId := 7, email := "u@x.com" } plainUser (by decide) rfl).1⟩⟩

/-- C9 — Forgot-password rollback: when the user exists and the reset email
dispatch fails, the operation answers the 500 failure outcome and the
resulting store has both `resetToken` and `resetTokenExpiry` back to `null`
on that user, so no live reset token remains. -/
theorem forgotPassword_rollback (db : List User) (email : String)
    (entropy : List Nat) (now : Nat) (user : User)
    (hemail : email ≠ "") (hfind : findByEmail db email = some user) :
    (forgotPassword db email entropy now false).1 = .emailFailed ∧
    ∀ v ∈ (forgotPassword db email entropy now false).2, v.id = user.id →
      v.resetToken = none ∧ v.resetTokenExpiry = none := by
  have hred : forgotPassword db email entropy now false =
      (.emailFailed,
       updateById
         (updateById db user.id fun u =>
           { u with resetToken := some (generateResetToken entropy),
                    resetTokenExpiry := some (generateResetTokenExpiry now) })
         user.id fun u =>
           { u with resetToken := none, resetTokenExpiry := none }) := by
    unfold forgotPassword
    rw [if_neg hemail]
    simp only [hfind]
    rfl
  rw [hred]
  refine ⟨rfl, ?_⟩
  intro v hv hid
  rcases updateById_mem hv with ⟨w, hw, hwid, rfl⟩ | ⟨hvdb, hnid⟩
  · exact ⟨rfl, rfl⟩
  · exact absurd hid hnid

/-- Witness for C9: the one-row store of `plainUser`, a failing email
dispatch, and the all-zero entropy buffer. -/
theorem forgotPassword_rollback_witness :
    (("u@x.com" : String) ≠ "" ∧
     findByEmail plainDb "u@x.com" = some plainUser) ∧
    (forgotPassword plainDb "u@x.com" (List.replicate 32 0) 0 false).1 =
      .emailFailed ∧
    ∀ v ∈ (forgotPassword plainDb "u@x.com" (List.replicate 32 0) 0 false).2,
      v.id = plainUser.id → v.resetToken = none ∧ v.resetTokenExpiry = none :=
  ⟨⟨by decide, rfl⟩,
   (forgotPassword_rollback plainDb "u@x.com" (List.replicate 32 0) 0
       plainUser (by decide) rfl).1,
   (forgotPassword_rollback plainDb "u@x.com" (List.replicate 32 0) 0
       plainUser (by decide) rfl).2⟩

/-- C10 — OAuth users cannot log in by password: a user created through the
Google OAuth callback is stored with the empty string as its password, and
the `login` controller answers `Invalid credentials` for every presented
password whenever the stored hash is the empty string or `null`, since
comparing any plaintext against an empty stored hash is `false`. -/
theorem oauth_users_cannot_password_login :
    (∀ (db : List User) (email firstName lastName : String) (newId : Int),
        findByEmail db email = none →
        ((googleFindOrCreate db email firstName lastName newId).1).password =
            some "" ∧
        (googleFindOrCreate db email firstName lastName newId).1 ∈
          (googleFindOrCreate db email firstName lastName newId).2) ∧
    (∀ (env : AuthEnv) (db : List User) (email pw : String) (now : Int)
        (user : User),
        email ≠ "" → pw ≠ "" →
        findByEmail db email = some user →
        (user.password = some "" ∨ user.password = none) →
        login env db email pw now = .invalidCredentials) := by
  constructor
  · intro db email firstName lastName newId hnone
    unfold googleFindOrCreate
    simp [hnone]
  · intro env db email pw now user hemail hpw hfind hpass
    have hcmp : comparePassword pw (user.password.getD "") = false := by
      rcases hpass with h | h <;> rw [h] <;> exact comparePassword_empty pw
    unfold login
    rw [if_neg (by simp [hemail, hpw])]
    simp [hfind, hcmp]

/-- Witness for C10: the store produced by the Google OAuth callback for
`g@x.com`; the created row carries an empty-string password and every
password login against it is rejected. -/
theorem oauth_users_cannot_password_login_witness :
    (findByEmail ([] : List User) "g@x.com" = none ∧
     oauthUser.password = some "" ∧ oauthUser ∈ oauthDb) ∧
    (("g@x.com" : String) ≠ "" ∧ ("hunter22" : String) ≠ "" ∧
     findByEmail oauthDb "g@x.com" = some oauthUser ∧
     login defaultAuthEnv oauthDb "g@x.com" "hunter22" 0 =
       .invalidCredentials) :=
  ⟨⟨rfl,
    (oauth_users_cannot_password_login.1 [] "g@x.com" "G" "X" 3 rfl).1,
    (oauth_users_cannot_password_login.1 [] "g@x.com" "G" "X" 3 rfl).2⟩,
   ⟨by decide, by decide, rfl,
    oauth_users_cannot_password_login.2 defaultAuthEnv oauthDb "g@x.com"
      "hunter22" 0 oauthUser (by decide) (by decide) rfl (Or.inl rfl)⟩⟩

end Scripelle
